import Mathlib

/-!
Verification development for the structured-extraction pipeline of
`lambda/lambda_function.py` (cloud-genai-doc-intel).

Python strings are embedded as `List Char`; `None`-able strings as
`Option (List Char)`.  The remote model endpoint (`hf_chat`) is embedded as an
oracle `Nat → HfCall` giving the outcome of the i-th HTTP call of one
invocation, and `random.random()` as a jitter stream `Nat → ℚ`.
-/

namespace DocIntel

abbrev Str := List Char

/-- Characters treated as whitespace by Python `str.strip` / regex `\s`
(ASCII range, which is what the pipeline's strings contain). -/
def pySpace (c : Char) : Bool :=
  c = ' ' || c = '\t' || c = '\n' || c = '\r' || c = '\x0b' || c = '\x0c'

/-- Python `str.strip()` from the left. -/
def pyLStrip (s : Str) : Str := s.dropWhile pySpace

/-- Python `str.strip()` from the right. -/
def pyRStrip (s : Str) : Str := (s.reverse.dropWhile pySpace).reverse

/-- Python `str.strip()`. -/
def pyStrip (s : Str) : Str := pyRStrip (pyLStrip s)

/-- Helper for `str.find`: first index of `c`, counting from `i`. -/
def pyFindAux (c : Char) : Str → Nat → Option Nat
  | [], _ => none
  | x :: xs, i => if x = c then some i else pyFindAux c xs (i + 1)

/-- Python `text.find(c)` (with `none` standing for `-1`). -/
def pyFind (c : Char) (s : Str) : Option Nat := pyFindAux c s 0

/-- Python `text.rfind(c)` (with `none` standing for `-1`): index of the last
occurrence of `c`. -/
def pyRFind (c : Char) (s : Str) : Option Nat :=
  match pyFind c s.reverse with
  | some j => some (s.length - 1 - j)
  | none => none

/-! ## The JSON data model and a model of Python `json.loads`

`lambda_function.py` delegates parsing to `json.loads`; this section embeds the
acceptance language of Python's strict JSON decoder (objects, arrays,
double-quoted strings with escapes, numbers, `true`/`false`/`null`).  Numbers
are kept as their lexemes; object members are kept in textual order.
(Modelling limits: `NaN`/`Infinity` extensions and lone UTF-16 surrogates in
`\u` escapes are rejected rather than accepted.) -/

inductive Json where
  | null : Json
  | bool (b : Bool) : Json
  | num (lexeme : Str) : Json
  | str (s : Str) : Json
  | arr (elems : List Json) : Json
  | obj (members : List (Str × Json)) : Json

/-- JSON whitespace accepted by Python's decoder. -/
def jsonWs (c : Char) : Bool := c = ' ' || c = '\t' || c = '\n' || c = '\r'

def skipW (s : Str) : Str := s.dropWhile jsonWs

/-- Hex digit value. -/
def hexVal (c : Char) : Option Nat :=
  if '0' ≤ c ∧ c ≤ '9' then some (c.toNat - '0'.toNat)
  else if 'a' ≤ c ∧ c ≤ 'f' then some (c.toNat - 'a'.toNat + 10)
  else if 'A' ≤ c ∧ c ≤ 'F' then some (c.toNat - 'A'.toNat + 10)
  else none

def isDigit (c : Char) : Bool := '0' ≤ c && c ≤ '9'

/-- Body of a JSON string after the opening quote; returns the decoded
content and the remaining input after the closing quote.  Mirrors Python's
strict `scanstring`: rejects unescaped control characters. -/
def parseStringBody : Str → Option (Str × Str)
  | [] => none
  | c :: rest =>
    if c = '"' then some ([], rest)
    else if c = '\\' then
      match rest with
      | [] => none
      | e :: rest2 =>
        if e = '"' then (parseStringBody rest2).map (fun p => ('"' :: p.1, p.2))
        else if e = '\\' then (parseStringBody rest2).map (fun p => ('\\' :: p.1, p.2))
        else if e = '/' then (parseStringBody rest2).map (fun p => ('/' :: p.1, p.2))
        else if e = 'b' then (parseStringBody rest2).map (fun p => ('\x08' :: p.1, p.2))
        else if e = 'f' then (parseStringBody rest2).map (fun p => ('\x0c' :: p.1, p.2))
        else if e = 'n' then (parseStringBody rest2).map (fun p => ('\n' :: p.1, p.2))
        else if e = 'r' then (parseStringBody rest2).map (fun p => ('\r' :: p.1, p.2))
        else if e = 't' then (parseStringBody rest2).map (fun p => ('\t' :: p.1, p.2))
        else if e = 'u' then
          match rest2 with
          | h1 :: h2 :: h3 :: h4 :: rest3 =>
            match hexVal h1, hexVal h2, hexVal h3, hexVal h4 with
            | some a, some b, some c1, some d =>
              let n := ((a * 16 + b) * 16 + c1) * 16 + d
              if n < 0xd800 ∨ 0xdfff < n then
                (parseStringBody rest3).map (fun p => (Char.ofNat n :: p.1, p.2))
              else if n < 0xdc00 then
                -- high surrogate: require a low surrogate to follow
                match rest3 with
                | '\\' :: 'u' :: g1 :: g2 :: g3 :: g4 :: rest4 =>
                  match hexVal g1, hexVal g2, hexVal g3, hexVal g4 with
                  | some a2, some b2, some c2, some d2 =>
                    let m := ((a2 * 16 + b2) * 16 + c2) * 16 + d2
                    if 0xdc00 ≤ m ∧ m ≤ 0xdfff then
                      let code := 0x10000 + (n - 0xd800) * 0x400 + (m - 0xdc00)
                      (parseStringBody rest4).map (fun p => (Char.ofNat code :: p.1, p.2))
                    else none
                  | _, _, _, _ => none
                | _ => none
              else none
            | _, _, _, _ => none
          | _ => none
        else none
    else if c.toNat < 0x20 then none
    else (parseStringBody rest).map (fun p => (c :: p.1, p.2))

/-- Lexeme of a JSON number (`-?(0|[1-9][0-9]*)(\.[0-9]+)?([eE][-+]?[0-9]+)?`),
returned together with the rest of the input. -/
def parseNumLex (s : Str) : Option (Str × Str) :=
  let signed : Str × Str :=
    match s with
    | '-' :: rest => (['-'], rest)
    | _ => ([], s)
  match signed.2 with
  | [] => none
  | c :: rest =>
    if c = '0' then
      let intPart := signed.1 ++ ['0']
      let afterInt := rest
      fracExp intPart afterInt
    else if isDigit c then
      let ds := rest.takeWhile isDigit
      let intPart := signed.1 ++ c :: ds
      fracExp intPart (rest.dropWhile isDigit)
    else none
where
  fracExp (intPart : Str) (s : Str) : Option (Str × Str) :=
    let (fracPart, afterFrac) :=
      match s with
      | '.' :: d :: rest =>
        if isDigit d then
          ('.' :: d :: rest.takeWhile isDigit, rest.dropWhile isDigit)
        else ([], s)
      | _ => ([], s)
    match afterFrac with
    | e :: rest =>
      if e = 'e' ∨ e = 'E' then
        match rest with
        | sgn :: d :: rest2 =>
          if (sgn = '+' ∨ sgn = '-') ∧ isDigit d then
            some (intPart ++ fracPart ++ e :: sgn :: d :: rest2.takeWhile isDigit,
                  rest2.dropWhile isDigit)
          else if isDigit sgn then
            some (intPart ++ fracPart ++ e :: sgn :: (d :: rest2).takeWhile isDigit,
                  (d :: rest2).dropWhile isDigit)
          else some (intPart ++ fracPart, afterFrac)
        | [d] =>
          if isDigit d then some (intPart ++ fracPart ++ [e, d], [])
          else some (intPart ++ fracPart, afterFrac)
        | [] => some (intPart ++ fracPart, afterFrac)
      else some (intPart ++ fracPart, afterFrac)
    | [] => some (intPart ++ fracPart, [])

mutual

/-- JSON value parser (fuel-indexed to make termination structural). -/
def parseVal : Nat → Str → Option (Json × Str)
  | 0, _ => none
  | _ + 1, [] => none
  | fuel + 1, c :: rest =>
    if c = '{' then parseObjFirst fuel (skipW rest)
    else if c = '[' then parseArrFirst fuel (skipW rest)
    else if c = '"' then (parseStringBody rest).map (fun p => (Json.str p.1, p.2))
    else if c = 't' then
      match rest with
      | 'r' :: 'u' :: 'e' :: r => some (Json.bool true, r)
      | _ => none
    else if c = 'f' then
      match rest with
      | 'a' :: 'l' :: 's' :: 'e' :: r => some (Json.bool false, r)
      | _ => none
    else if c = 'n' then
      match rest with
      | 'u' :: 'l' :: 'l' :: r => some (Json.null, r)
      | _ => none
    else
      (parseNumLex (c :: rest)).map (fun p => (Json.num p.1, p.2))

/-- Object body directly after `{` and whitespace. -/
def parseObjFirst : Nat → Str → Option (Json × Str)
  | 0, _ => none
  | _ + 1, [] => none
  | fuel + 1, c :: rest =>
    if c = '}' then some (Json.obj [], rest)
    else if c = '"' then
      match parseStringBody rest with
      | some (key, r) => parseObjAfterKey fuel [] key (skipW r)
      | none => none
    else none

/-- After an object key: expect `:`, a value, then delimiter handling. -/
def parseObjAfterKey : Nat → List (Str × Json) → Str → Str → Option (Json × Str)
  | 0, _, _, _ => none
  | fuel + 1, acc, key, s =>
    match s with
    | ':' :: r =>
      match parseVal fuel (skipW r) with
      | some (v, r2) => parseObjDelim fuel (acc ++ [(key, v)]) (skipW r2)
      | none => none
    | _ => none

/-- After an object member: `}` closes, `,` continues with another key. -/
def parseObjDelim : Nat → List (Str × Json) → Str → Option (Json × Str)
  | 0, _, _ => none
  | _ + 1, acc, '}' :: r => some (Json.obj acc, r)
  | fuel + 1, acc, ',' :: r =>
    match skipW r with
    | '"' :: r2 =>
      match parseStringBody r2 with
      | some (key, r3) => parseObjAfterKey fuel acc key (skipW r3)
      | none => none
    | _ => none
  | _ + 1, _, _ => none

/-- Array body directly after `[` and whitespace. -/
def parseArrFirst : Nat → Str → Option (Json × Str)
  | 0, _ => none
  | fuel + 1, s =>
    match s with
    | ']' :: r => some (Json.arr [], r)
    | _ =>
      match parseVal fuel s with
      | some (v, r) => parseArrDelim fuel [v] (skipW r)
      | none => none

/-- After an array element: `]` closes, `,` continues with another value. -/
def parseArrDelim : Nat → List Json → Str → Option (Json × Str)
  | 0, _, _ => none
  | _ + 1, acc, ']' :: r => some (Json.arr acc, r)
  | fuel + 1, acc, ',' :: r =>
    match parseVal fuel (skipW r) with
    | some (v, r2) => parseArrDelim fuel (acc ++ [v]) (skipW r2)
    | none => none
  | _ + 1, _, _ => none

end

/-- Model of Python `json.loads`: skip surrounding whitespace, parse one value,
require the whole input to be consumed (`Extra data` otherwise). -/
def jsonLoads (s : Str) : Option Json :=
  match parseVal (8 * s.length + 8) (skipW s) with
  | some (v, rest) => if skipW rest = [] then some v else none
  | none => none

/-! ## The two textual repairs of `extract_json_object` -/

mutual

/-- Scanner of `re.sub(r",(\s*[}\]])", r"\1", candidate)` (fuel-indexed for
structural termination — one unit of fuel per character consumed). -/
def rtcAux : Nat → Str → Str
  | 0, s => s
  | _ + 1, [] => []
  | fuel + 1, c :: rest =>
    if c = ',' then rtcComma fuel [] rest else c :: rtcAux fuel rest

/-- State after reading a `,` not yet emitted; `ws` holds the whitespace read
since it, reversed.  The comma is dropped exactly when the first
non-whitespace character after it is `}` or `]`; scanning resumes after a
match (non-overlapping, left to right, as `re.sub` does). -/
def rtcComma : Nat → Str → Str → Str
  | 0, ws, s => ',' :: ws.reverse ++ s
  | _ + 1, ws, [] => ',' :: ws.reverse
  | fuel + 1, ws, c :: rest =>
    if c = '}' ∨ c = ']' then ws.reverse ++ c :: rtcAux fuel rest
    else if pySpace c then rtcComma fuel (c :: ws) rest
    else if c = ',' then ',' :: (ws.reverse ++ rtcComma fuel [] rest)
    else ',' :: (ws.reverse ++ c :: rtcAux fuel rest)

end

/-- Model of `re.sub(r",(\s*[}\]])", r"\1", candidate)`: left-to-right
non-overlapping removal of a comma whose next non-whitespace character is a
closing `}` or `]` (the replacement keeps the whitespace and the bracket). -/
def removeTrailingCommas (s : Str) : Str := rtcAux (s.length + 1) s

/-- Model of the three `str.replace` calls normalizing typographic quotes
(`“` and `”` to `"`, `’` to `'`); single-character replacements whose outputs
are not later inputs, hence a single map. -/
def fixQuotes (s : Str) : Str :=
  s.map (fun c =>
    if c = '“' then '"'
    else if c = '”' then '"'
    else if c = '’' then '\''
    else c)

/-! ## `extract_json_object` -/

/-- The `ValueError`s of `extract_json_object` plus the `json.loads` failure,
distinguished by their messages in the source. -/
inductive JsonErr where
  | emptyOutput : JsonErr
  | noJsonFound (snippet : Str) : JsonErr
  | parseError : JsonErr
deriving DecidableEq

/-- `extract_json_object` (lambda_function.py lines 17–37). -/
def extract_json_object (text : Str) : Except JsonErr Json :=
  if text = [] then .error .emptyOutput
  else
    match pyFind '{' text, pyRFind '}' text with
    | some start, some stop =>
      if stop ≤ start then .error (.noJsonFound (text.take 500))
      else
        let candidate := pyStrip ((text.drop start).take (stop + 1 - start))
        let repaired := fixQuotes (removeTrailingCommas candidate)
        match jsonLoads repaired with
        | some v => .ok v
        | none => .error .parseError
    | _, _ => .error (.noJsonFound (text.take 500))

/-! ## Model Client messages and the Retry/Backoff Controller

`hf_chat` performs one HTTPS POST; one pipeline invocation is run against an
oracle `Nat → HfCall` giving the outcome of its i-th call: the reply content
(raised exceptions become `httpErr` for `urllib.error.HTTPError`, `otherErr`
for any other exception such as `URLError` or response-shape errors).
`random.random()` is the stream `jitter : Nat → ℚ`, indexed by how many times
it has been drawn (once per backoff sleep). -/

structure Message where
  role : Str
  content : Str
deriving DecidableEq

/-- System prompt of the primary extraction call. -/
def primarySystemText : Str :=
  "Return ONLY valid JSON. No markdown, no comments, no trailing commas, no extra text.".toList

/-- The f-string template of the primary user message up to the interpolated
document text (lambda_function.py lines 80–115), before the final `.strip()`. -/
def primaryUserPrefix : Str :=
  "\nReturn ONLY valid JSON.\n\nSchema:\n\x7b\n  \"document_type\": \"resume|invoice|homework|research_paper|other\",\n  \"title\": null,\n  \"summary\": \"\",\n  \"key_points\": [],\n  \"entities\": \x7b\n    \"people\": [],\n    \"emails\": [],\n    \"phone_numbers\": [],\n    \"organizations\": [],\n    \"dates\": [],\n    \"amounts\": [],\n    \"locations\": []\n  \x7d,\n  \"fields\": \x7b\n    \"resume\": \x7b\n      \"candidate_name\": null,\n      \"skills\": [],\n      \"education\": [],\n      \"experience\": []\n    \x7d,\n    \"invoice\": \x7b\n      \"invoice_number\": null,\n      \"vendor\": null,\n      \"invoice_date\": null,\n      \"total_amount\": null\n    \x7d\n  \x7d\n\x7d\n\nDocument text:\n".toList

/-- `base_messages` built from the (already truncated) document text. -/
def mkBaseMessages (text : Str) : List Message :=
  [⟨"system".toList, primarySystemText⟩,
   ⟨"user".toList, pyStrip (primaryUserPrefix ++ text ++ "\n".toList)⟩]

/-- `repair_messages` built from the raw reply to be fixed. -/
def mkRepairMessages (raw : Str) : List Message :=
  [⟨"system".toList,
    "You are a JSON repair bot. Return ONLY valid JSON. No markdown, no extra text.".toList⟩,
   ⟨"user".toList,
    "Fix this to be valid JSON and return ONLY the JSON:\n\n".toList ++ raw⟩]

/-- Outcome of one `hf_chat` call, before the `.strip()` applied to replies. -/
inductive HfCall where
  | reply (content : Str) : HfCall
  | httpErr (code : Nat) (reason : Str) (body : Str) : HfCall
  | otherErr (msg : Str) : HfCall

/-- `str(e)`-level description of an exception recorded into `last_err`. -/
inductive ExcInfo where
  | jsonErr (e : JsonErr) : ExcInfo
  | httpExc (code : Nat) (reason : Str) (body : Str) : ExcInfo
  | otherExc (msg : Str) : ExcInfo
deriving DecidableEq

/-- The `last_err` dict: either the HTTP-error record of lines 137, or the
parse/repair record of line 163. -/
inductive LastErr where
  | http (code : Nat) (reason : Str) (body : Str) : LastErr
  | parseRepair (err : ExcInfo) (repairErr : ExcInfo) : LastErr
deriving DecidableEq

/-- How `call_hf_extract` can raise. -/
inductive HfFailure where
  | configError : HfFailure
  | fatalHttp (code : Nat) (reason : Str) (body : Str) : HfFailure
  | extractionFailed (lastErr : Option LastErr) : HfFailure

/-- Observable behaviour of one `call_hf_extract` invocation: its outcome, the
backoff sleeps in order, the number of `hf_chat` calls, the number of loop
iterations entered, and the message lists sent, in order. -/
structure HfRun where
  result : Except HfFailure (Json × Str)
  sleeps : List ℚ
  calls : Nat
  attemptsUsed : Nat
  sent : List (List Message)

def retryableCodes : List Nat := [429, 500, 502, 503, 504]

def baseDelay : ℚ := 1

def maxAttempts : Nat := 3

/-- `range(1, max_attempts + 1)`. -/
def attemptNumbers : List Nat := List.range' 1 maxAttempts

/-- The retry loop of `call_hf_extract` (lines 124–168), over the attempt
numbers still to run.  `text` is the already-truncated document text,
`sleepIdx` counts the `random.random()` draws so far, `lastErr` is the
`last_err` variable.  `repairWith e raw` is the single repair pass inside one
attempt (lines 146–166): one more `hf_chat` call; any failure of it is folded
into this attempt's `last_err` (`failNext`), followed by the backoff sleep and
the next attempt — the repair itself never retries. -/
def runAttempts (text : Str) (oracle : Nat → HfCall) (jitter : Nat → ℚ)
    (sleepIdx : Nat) (lastErr : Option LastErr) : List Nat → HfRun
  | [] => ⟨.error (.extractionFailed lastErr), [], 0, 0, []⟩
  | attempt :: rest =>
    let failNext : LastErr → Str → HfRun := fun le raw =>
      let d := baseDelay * 2 ^ (attempt - 1) + jitter sleepIdx
      let r := runAttempts text (fun i => oracle (i + 2)) jitter (sleepIdx + 1) (some le) rest
      ⟨r.result, d :: r.sleeps, r.calls + 2, r.attemptsUsed + 1,
        mkBaseMessages text :: mkRepairMessages raw :: r.sent⟩
    let repairWith : ExcInfo → Str → HfRun := fun e raw =>
      match oracle 1 with
      | .reply rcontent =>
        let rraw := pyStrip rcontent
        match extract_json_object rraw with
        | .ok v => ⟨.ok (v, rraw), [], 2, 1, [mkBaseMessages text, mkRepairMessages raw]⟩
        | .error je2 => failNext (.parseRepair e (.jsonErr je2)) raw
      | .httpErr c rs b => failNext (.parseRepair e (.httpExc c rs b)) raw
      | .otherErr m2 => failNext (.parseRepair e (.otherExc m2)) raw
    match oracle 0 with
    | .reply content =>
      let raw := pyStrip content
      match extract_json_object raw with
      | .ok v => ⟨.ok (v, raw), [], 1, 1, [mkBaseMessages text]⟩
      | .error je => repairWith (.jsonErr je) raw
    | .httpErr code reason body =>
      if code ∈ retryableCodes then
        let d := baseDelay * 2 ^ (attempt - 1) + jitter sleepIdx
        let r := runAttempts text (fun i => oracle (i + 1)) jitter (sleepIdx + 1)
          (some (.http code reason body)) rest
        ⟨r.result, d :: r.sleeps, r.calls + 1, r.attemptsUsed + 1,
          mkBaseMessages text :: r.sent⟩
      else
        ⟨.error (.fatalHttp code reason body), [], 1, 1, [mkBaseMessages text]⟩
    | .otherErr m =>
      -- non-HTTP exception from `hf_chat`: `raw_output` is still `""`
      repairWith (.otherExc m) []

/-- `call_hf_extract` (lines 40–168): fail fast without a token, truncate the
document text to 8000 characters, then run the retry loop. -/
def call_hf_extract (token : Option Str) (oracle : Nat → HfCall) (jitter : Nat → ℚ)
    (text0 : Str) : HfRun :=
  match token with
  | none => ⟨.error .configError, [], 0, 0, []⟩
  | some _ => runAttempts (text0.take 8000) oracle jitter 0 none attemptNumbers

/-! ## The Pipeline Driver (`lambda_handler`)

S3 reads/writes, the event payload and pypdf are external collaborators: the
handler is embedded as a function of the (already URL-decoded) object key, the
page texts pypdf would extract (`none` for a page whose `extract_text()`
returns `None`), and the model-client oracle.  Its observable behaviour is the
list of `put_object` calls, the returned body, and whether the extraction
protocol (`call_hf_extract`) was invoked. -/

/-- Content of one persisted artifact. -/
inductive PutBody where
  | extractedText (text : Str) : PutBody
  | metaRecord (sourcePdf : Str) (pages : Nat) (chars : Nat) (note : Str) : PutBody
  | structuredJson (v : Json) : PutBody
  | errorReport (sourcePdf : Str) (error : HfFailure) (hint : Str) (snippet : Str) : PutBody

structure PutObject where
  key : Str
  body : PutBody

structure HandlerEnv where
  bucket : Str
  key : Str
  pages : List (Option Str)
  token : Option Str
  oracle : Nat → HfCall
  jitter : Nat → ℚ

structure HandlerResult where
  puts : List PutObject
  statusCode : Nat
  body : Str
  llmInvoked : Bool

/-- Python `key.lower()` (the keys in play are ASCII). -/
def pyLower (s : Str) : Str := s.map Char.toLower

/-- The intake filter of lines 176–178. -/
def targetKey (key : Str) : Bool :=
  "raw/".toList.isPrefixOf key && ".pdf".toList.isSuffixOf (pyLower key)

/-- Lines 186–191: keep the text of each page whose extraction result is
truthy after `strip()` (`None` becomes `""` first). -/
def pagesTextOf : List (Option Str) → List Str
  | [] => []
  | p :: rest =>
    let t := p.getD []
    if pyStrip t ≠ [] then t :: pagesTextOf rest else pagesTextOf rest

/-- Line 192: `"\n\n".join(pages_text)`. -/
def extractedTextOf (pages : List (Option Str)) : Str :=
  List.intercalate "\n\n".toList (pagesTextOf pages)

/-- `key.split("/")[-1]`. -/
def afterLastSlash (key : Str) : Str :=
  match pyRFind '/' key with
  | some i => key.drop (i + 1)
  | none => key

/-- `name.rsplit(".", 1)[0]`. -/
def dropLastDotSuffix (name : Str) : Str :=
  match pyRFind '.' name with
  | some i => name.take i
  | none => name

/-- Line 194: `key.split("/")[-1].rsplit(".", 1)[0]`. -/
def baseNameOf (key : Str) : Str := dropLastDotSuffix (afterLastSlash key)

def textKeyOf (key : Str) : Str := "processed/".toList ++ baseNameOf key ++ ".txt".toList
def metaKeyOf (key : Str) : Str := "processed/".toList ++ baseNameOf key ++ ".json".toList
def structuredKeyOf (key : Str) : Str :=
  "processed/".toList ++ baseNameOf key ++ ".structured.json".toList
def errKeyOf (key : Str) : Str :=
  "processed/".toList ++ baseNameOf key ++ ".structured.error.json".toList

def sourcePdfOf (bucket key : Str) : Str :=
  "s3://".toList ++ bucket ++ "/".toList ++ key

def metaNote : Str :=
  "Text extracted using pypdf (best for text-based PDFs). Scanned PDFs may be empty.".toList

def errHint : Str :=
  "If HF returns 429/503, it may be busy. Try later or use a smaller PDF.".toList

/-- `lambda_handler` (lines 171–251). -/
def lambda_handler (env : HandlerEnv) : HandlerResult :=
  if ¬ targetKey env.key then ⟨[], 200, "skipped".toList, false⟩
  else
    let extracted := extractedTextOf env.pages
    let sourcePdf := sourcePdfOf env.bucket env.key
    let basePuts : List PutObject :=
      [⟨textKeyOf env.key, .extractedText extracted⟩,
       ⟨metaKeyOf env.key, .metaRecord sourcePdf env.pages.length extracted.length metaNote⟩]
    if (pyStrip extracted).length = 0 then
      ⟨basePuts, 200, "no_text".toList, false⟩
    else
      -- LLM step (graceful failure)
      match (call_hf_extract env.token env.oracle env.jitter extracted).result with
      | .ok (structured, _rawLlmOutput) =>
        ⟨basePuts ++ [⟨structuredKeyOf env.key, .structuredJson structured⟩],
         200, "processed_with_llm".toList, true⟩
      | .error e =>
        -- `raw_llm_output` is still `None` here: the exception aborted before
        -- the assignment of line 225, so the persisted snippet is `("")[:2000]`
        ⟨basePuts ++ [⟨errKeyOf env.key,
            .errorReport sourcePdf e errHint
              (((none : Option Str).getD []).take 2000)⟩],
         200, "processed_but_llm_failed".toList, true⟩

/-- Does a persisted artifact hold a StructuredRecord? -/
def isStructuredPut (p : PutObject) : Bool :=
  match p.body with
  | .structuredJson _ => true
  | _ => false

/-- Does a persisted artifact hold an ErrorReport? -/
def isErrorPut (p : PutObject) : Bool :=
  match p.body with
  | .errorReport _ _ _ _ => true
  | _ => false

/-! ## Helper lemmas about the string primitives -/

/-- Claim C5 (counterexample): an input containing exactly the curly-quote
punctuation `“key”: ’value’` of the claim does not parse after substitution of
straight quotes — the substitution yields `{"key": 'value'}` and single-quoted
strings are not valid JSON — so the quote repair does not make every
curly-quoted input parse. -/
theorem claim_C5_counterexample :
    extract_json_object "\x7b“key”: ’value’\x7d".toList = .error .parseError ∧
    fixQuotes (removeTrailingCommas "\x7b“key”: ’value’\x7d".toList) =
      "\x7b\"key\": 'value'\x7d".toList := by
  exact ⟨rfl, rfl⟩

/-- Claim C5 (amended): before parsing, `extract_json_object` applies exactly
the two textual repairs — trailing-comma removal, then curly-quote
normalization — so `{"a": 1, "b": [1,2,],}` parses exactly as
`{"a":1,"b":[1,2]}` does, an input whose curly quotes delimit double-quoted
content parses after substitution, and a curly single quote inside a
double-quoted string becomes an ASCII apostrophe; but an input whose strings
are delimited by curly single quotes still fails to parse after substitution. -/
theorem claim_C5 :
    (jsonLoads "\x7b\"a\":1,\"b\":[1,2]\x7d".toList =
       some (Json.obj [("a".toList, Json.num "1".toList),
         ("b".toList, Json.arr [Json.num "1".toList, Json.num "2".toList])]) ∧
     extract_json_object "\x7b\"a\": 1, \"b\": [1,2,],\x7d".toList =
       .ok (Json.obj [("a".toList, Json.num "1".toList),
         ("b".toList, Json.arr [Json.num "1".toList, Json.num "2".toList])])) ∧
    extract_json_object "\x7b“key”: “value”\x7d".toList =
      .ok (Json.obj [("key".toList, Json.str "value".toList)]) ∧
    extract_json_object "\x7b\"k\": \"it’s\"\x7d".toList =
      .ok (Json.obj [("k".toList, Json.str "it's".toList)]) ∧
    extract_json_object "\x7b’k’: 1\x7d".toList = .error .parseError :=
  ⟨⟨rfl, rfl⟩, rfl, rfl, rfl⟩

/-- Claim C6 (counterexample): the empty input has no `{`, yet
`extract_json_object` raises the distinct `Empty model output` error, not the
`No JSON object found` one. -/
theorem claim_C6_counterexample :
    '{' ∉ ([] : Str) ∧
    extract_json_object [] = .error .emptyOutput ∧
    JsonErr.emptyOutput ≠ .noJsonFound ([].take 500) := by
  exact ⟨by decide, rfl, by decide⟩

/-- Claim C6 (amended): for every nonempty input text in which `{` is absent,
or `}` is absent, or the last `}` does not come after the first `{`,
`extract_json_object` fails with exactly the `No JSON object found` error
(carrying the first 500 characters of the input) and no other error. -/
theorem claim_C6 (t : Str) (hne : t ≠ [])
    (h : pyFind '{' t = none ∨ pyRFind '}' t = none ∨
         ∃ i j, pyFind '{' t = some i ∧ pyRFind '}' t = some j ∧ j ≤ i) :
    extract_json_object t = .error (.noJsonFound (t.take 500)) := by
  unfold extract_json_object
  rw [if_neg hne]
  rcases h with h | h | ⟨i, j, hi, hj, hle⟩
  · rw [h]
  · rw [h]
    cases pyFind '{' t <;> rfl
  · rw [hi, hj]
    exact if_pos hle

/-- Claim C6 (witness for the amended theorem), at a brace-free input. -/
theorem claim_C6_witness :
    extract_json_object "no json here".toList =
      .error (.noJsonFound ("no json here".toList.take 500)) :=
  claim_C6 "no json here".toList (by decide) (Or.inl rfl)

/-! ## Step lemmas for the retry loop -/

/-- Classification of the repair call's own failure: `none` when the repair
reply parses, otherwise the exception `e2` recorded into `last_err`. -/
def repairFailExc : HfCall → Option ExcInfo
  | .reply rc =>
    match extract_json_object (pyStrip rc) with
    | .ok _ => none
    | .error je2 => some (.jsonErr je2)
  | .httpErr c rs b => some (.httpExc c rs b)
  | .otherErr m2 => some (.otherExc m2)

theorem runAttempts_ok_step (text : Str) (oracle : Nat → HfCall) (jitter : Nat → ℚ)
    (si : Nat) (le : Option LastErr) (attempt : Nat) (rest : List Nat)
    (content : Str) (v : Json)
    (h0 : oracle 0 = .reply content)
    (hex : extract_json_object (pyStrip content) = .ok v) :
    runAttempts text oracle jitter si le (attempt :: rest) =
      ⟨.ok (v, pyStrip content), [], 1, 1, [mkBaseMessages text]⟩ := by
  simp only [runAttempts, h0, hex]

theorem runAttempts_retry_step (text : Str) (oracle : Nat → HfCall) (jitter : Nat → ℚ)
    (si : Nat) (le : Option LastErr) (attempt : Nat) (rest : List Nat)
    (code : Nat) (reason body : Str)
    (h0 : oracle 0 = .httpErr code reason body)
    (hcode : code ∈ retryableCodes) :
    runAttempts text oracle jitter si le (attempt :: rest) =
      (let r := runAttempts text (fun i => oracle (i + 1)) jitter (si + 1)
        (some (.http code reason body)) rest
       ⟨r.result, (baseDelay * 2 ^ (attempt - 1) + jitter si) :: r.sleeps, r.calls + 1,
        r.attemptsUsed + 1, mkBaseMessages text :: r.sent⟩) := by
  simp only [runAttempts, h0, hcode, if_pos]

theorem runAttempts_fatal_step (text : Str) (oracle : Nat → HfCall) (jitter : Nat → ℚ)
    (si : Nat) (le : Option LastErr) (attempt : Nat) (rest : List Nat)
    (code : Nat) (reason body : Str)
    (h0 : oracle 0 = .httpErr code reason body)
    (hcode : code ∉ retryableCodes) :
    runAttempts text oracle jitter si le (attempt :: rest) =
      ⟨.error (.fatalHttp code reason body), [], 1, 1, [mkBaseMessages text]⟩ := by
  simp only [runAttempts, h0]
  rw [if_neg hcode]

theorem runAttempts_repairok_step (text : Str) (oracle : Nat → HfCall) (jitter : Nat → ℚ)
    (si : Nat) (le : Option LastErr) (attempt : Nat) (rest : List Nat)
    (content rc : Str) (je : JsonErr) (v : Json)
    (h0 : oracle 0 = .reply content)
    (hex : extract_json_object (pyStrip content) = .error je)
    (h1 : oracle 1 = .reply rc)
    (hex2 : extract_json_object (pyStrip rc) = .ok v) :
    runAttempts text oracle jitter si le (attempt :: rest) =
      ⟨.ok (v, pyStrip rc), [], 2, 1,
       [mkBaseMessages text, mkRepairMessages (pyStrip content)]⟩ := by
  simp only [runAttempts, h0, hex, h1, hex2]

theorem runAttempts_repairfail_step (text : Str) (oracle : Nat → HfCall) (jitter : Nat → ℚ)
    (si : Nat) (le : Option LastErr) (attempt : Nat) (rest : List Nat)
    (content : Str) (je : JsonErr) (e2 : ExcInfo)
    (h0 : oracle 0 = .reply content)
    (hex : extract_json_object (pyStrip content) = .error je)
    (h1 : repairFailExc (oracle 1) = some e2) :
    runAttempts text oracle jitter si le (attempt :: rest) =
      (let r := runAttempts text (fun i => oracle (i + 2)) jitter (si + 1)
        (some (.parseRepair (.jsonErr je) e2)) rest
       ⟨r.result, (baseDelay * 2 ^ (attempt - 1) + jitter si) :: r.sleeps, r.calls + 2,
        r.attemptsUsed + 1,
        mkBaseMessages text :: mkRepairMessages (pyStrip content) :: r.sent⟩) := by
  cases hc : oracle 1 with
  | reply rc =>
    rw [hc] at h1
    cases hex2 : extract_json_object (pyStrip rc) with
    | ok v => simp [repairFailExc, hex2] at h1
    | error je2 =>
      simp only [repairFailExc, hex2] at h1
      injection h1 with h1
      subst h1
      simp only [runAttempts, h0, hex, hc, hex2]
  | httpErr c rs b =>
    rw [hc] at h1
    simp only [repairFailExc] at h1
    injection h1 with h1
    subst h1
    simp only [runAttempts, h0, hex, hc]
  | otherErr m2 =>
    rw [hc] at h1
    simp only [repairFailExc] at h1
    injection h1 with h1
    subst h1
    simp only [runAttempts, h0, hex, hc]

theorem runAttempts_othererr_repairok_step (text : Str) (oracle : Nat → HfCall)
    (jitter : Nat → ℚ) (si : Nat) (le : Option LastErr) (attempt : Nat) (rest : List Nat)
    (m rc : Str) (v : Json)
    (h0 : oracle 0 = .otherErr m)
    (h1 : oracle 1 = .reply rc)
    (hex2 : extract_json_object (pyStrip rc) = .ok v) :
    runAttempts text oracle jitter si le (attempt :: rest) =
      ⟨.ok (v, pyStrip rc), [], 2, 1,
       [mkBaseMessages text, mkRepairMessages []]⟩ := by
  simp only [runAttempts, h0, h1, hex2]

theorem runAttempts_othererr_repairfail_step (text : Str) (oracle : Nat → HfCall)
    (jitter : Nat → ℚ) (si : Nat) (le : Option LastErr) (attempt : Nat) (rest : List Nat)
    (m : Str) (e2 : ExcInfo)
    (h0 : oracle 0 = .otherErr m)
    (h1 : repairFailExc (oracle 1) = some e2) :
    runAttempts text oracle jitter si le (attempt :: rest) =
      (let r := runAttempts text (fun i => oracle (i + 2)) jitter (si + 1)
        (some (.parseRepair (.otherExc m) e2)) rest
       ⟨r.result, (baseDelay * 2 ^ (attempt - 1) + jitter si) :: r.sleeps, r.calls + 2,
        r.attemptsUsed + 1,
        mkBaseMessages text :: mkRepairMessages [] :: r.sent⟩) := by
  cases hc : oracle 1 with
  | reply rc =>
    rw [hc] at h1
    cases hex2 : extract_json_object (pyStrip rc) with
    | ok v => simp [repairFailExc, hex2] at h1
    | error je2 =>
      simp only [repairFailExc, hex2] at h1
      injection h1 with h1
      subst h1
      simp only [runAttempts, h0, hc, hex2]
  | httpErr c rs b =>
    rw [hc] at h1
    simp only [repairFailExc] at h1
    injection h1 with h1
    subst h1
    simp only [runAttempts, h0, hc]
  | otherErr m2 =>
    rw [hc] at h1
    simp only [repairFailExc] at h1
    injection h1 with h1
    subst h1
    simp only [runAttempts, h0, hc]

/-- The retry loop never enters more iterations than there are attempt
numbers left. -/
theorem runAttempts_attemptsUsed_le (text : Str) (oracle : Nat → HfCall)
    (jitter : Nat → ℚ) (si : Nat) (le : Option LastErr) (atts : List Nat) :
    (runAttempts text oracle jitter si le atts).attemptsUsed ≤ atts.length := by
  induction atts generalizing oracle si le with
  | nil => simp [runAttempts]
  | cons attempt rest ih =>
    cases h0 : oracle 0 with
    | reply content =>
      cases hex : extract_json_object (pyStrip content) with
      | ok v =>
        rw [runAttempts_ok_step text oracle jitter si le attempt rest content v h0 hex]
        simp
      | error je =>
        cases h1 : repairFailExc (oracle 1) with
        | some e2 =>
          rw [runAttempts_repairfail_step text oracle jitter si le attempt rest
            content je e2 h0 hex h1]
          have h := ih (fun i => oracle (i + 2)) (si + 1)
            (some (.parseRepair (.jsonErr je) e2))
          simp only [List.length_cons]
          exact Nat.succ_le_succ h
        | none =>
          cases hc : oracle 1 with
          | reply rc =>
            rw [hc] at h1
            cases hex2 : extract_json_object (pyStrip rc) with
            | ok v =>
              rw [runAttempts_repairok_step text oracle jitter si le attempt rest
                content rc je v h0 hex hc hex2]
              simp
            | error je2 => simp [repairFailExc, hex2] at h1
          | httpErr c rs b =>
            rw [hc] at h1
            simp [repairFailExc] at h1
          | otherErr m2 =>
            rw [hc] at h1
            simp [repairFailExc] at h1
    | httpErr code reason body =>
      by_cases hcode : code ∈ retryableCodes
      · rw [runAttempts_retry_step text oracle jitter si le attempt rest
          code reason body h0 hcode]
        have h := ih (fun i => oracle (i + 1)) (si + 1) (some (.http code reason body))
        simp only [List.length_cons]
        exact Nat.succ_le_succ h
      · rw [runAttempts_fatal_step text oracle jitter si le attempt rest
          code reason body h0 hcode]
        simp
    | otherErr m =>
      cases h1 : repairFailExc (oracle 1) with
      | some e2 =>
        rw [runAttempts_othererr_repairfail_step text oracle jitter si le attempt rest
          m e2 h0 h1]
        have h := ih (fun i => oracle (i + 2)) (si + 1)
          (some (.parseRepair (.otherExc m) e2))
        simp only [List.length_cons]
        exact Nat.succ_le_succ h
      | none =>
        cases hc : oracle 1 with
        | reply rc =>
          rw [hc] at h1
          cases hex2 : extract_json_object (pyStrip rc) with
          | ok v =>
            rw [runAttempts_othererr_repairok_step text oracle jitter si le attempt rest
              m rc v h0 hc hex2]
            simp
          | error je2 => simp [repairFailExc, hex2] at h1
        | httpErr c rs b =>
          rw [hc] at h1
          simp [repairFailExc] at h1
        | otherErr m2 =>
          rw [hc] at h1
          simp [repairFailExc] at h1


/-! ## Claim theorems for the Retry/Backoff Controller -/

/-- Claim C2: the controller makes at most 3 attempts; on a retryable HTTP
error it sleeps `base_delay * 2^(attempt-1) + random()` and proceeds; with 503
on the first two calls and a valid JSON reply on the third it succeeds on the
third attempt having slept exactly twice, each delay at least `2^(n-1)`; and
when all three attempts fail with 503 it raises `ExtractionFailed` carrying
the last recorded error detail, with no fourth attempt. -/
theorem claim_C2 (tk text reason body good : Str) (v : Json)
    (oracle oracleFail : Nat → HfCall) (jitter : Nat → ℚ)
    (hj : ∀ n, 0 ≤ jitter n ∧ jitter n < 1)
    (h0 : oracle 0 = .httpErr 503 reason body)
    (h1 : oracle 1 = .httpErr 503 reason body)
    (h2 : oracle 2 = .reply good)
    (hgood : extract_json_object (pyStrip good) = .ok v)
    (hf0 : oracleFail 0 = .httpErr 503 reason body)
    (hf1 : oracleFail 1 = .httpErr 503 reason body)
    (hf2 : oracleFail 2 = .httpErr 503 reason body) :
    (∀ (tok : Option Str) (o : Nat → HfCall) (j : Nat → ℚ) (t : Str),
      (call_hf_extract tok o j t).attemptsUsed ≤ 3) ∧
    call_hf_extract (some tk) oracle jitter text =
      ⟨.ok (v, pyStrip good),
       [baseDelay * 2 ^ (1 - 1) + jitter 0, baseDelay * 2 ^ (2 - 1) + jitter 1],
       3, 3,
       [mkBaseMessages (text.take 8000), mkBaseMessages (text.take 8000),
        mkBaseMessages (text.take 8000)]⟩ ∧
    ((2 : ℚ) ^ (1 - 1 : ℕ) ≤ baseDelay * 2 ^ (1 - 1 : ℕ) + jitter 0 ∧
     (2 : ℚ) ^ (2 - 1 : ℕ) ≤ baseDelay * 2 ^ (2 - 1 : ℕ) + jitter 1) ∧
    call_hf_extract (some tk) oracleFail jitter text =
      ⟨.error (.extractionFailed (some (.http 503 reason body))),
       [baseDelay * 2 ^ (1 - 1) + jitter 0, baseDelay * 2 ^ (2 - 1) + jitter 1,
        baseDelay * 2 ^ (3 - 1) + jitter 2],
       3, 3,
       [mkBaseMessages (text.take 8000), mkBaseMessages (text.take 8000),
        mkBaseMessages (text.take 8000)]⟩ := by
  have hatt : attemptNumbers = [1, 2, 3] := rfl
  refine ⟨?_, ?_, ⟨?_, ?_⟩, ?_⟩
  · intro tok o j t
    cases tok with
    | none => simp [call_hf_extract]
    | some tk2 =>
      have h := runAttempts_attemptsUsed_le (t.take 8000) o j 0 none attemptNumbers
      simpa [call_hf_extract, hatt] using h
  · show runAttempts (text.take 8000) oracle jitter 0 none attemptNumbers = _
    rw [hatt]
    rw [runAttempts_retry_step (text.take 8000) oracle jitter 0 none 1 [2, 3]
      503 reason body h0 (by decide)]
    have h1s : (fun i => oracle (i + 1)) 0 = HfCall.httpErr 503 reason body := by
      simpa using h1
    rw [runAttempts_retry_step (text.take 8000) (fun i => oracle (i + 1)) jitter 1
      (some (.http 503 reason body)) 2 [3] 503 reason body h1s (by decide)]
    have h2s : (fun i => (fun i => oracle (i + 1)) (i + 1)) 0 = HfCall.reply good := by
      simpa using h2
    rw [runAttempts_ok_step (text.take 8000) (fun i => (fun i => oracle (i + 1)) (i + 1))
      jitter 2 (some (.http 503 reason body)) 3 [] good v h2s hgood]
  · have := (hj 0).1
    simp only [Nat.sub_self, pow_zero, baseDelay, one_mul]
    linarith
  · have := (hj 1).1
    norm_num [baseDelay]
    linarith
  · show runAttempts (text.take 8000) oracleFail jitter 0 none attemptNumbers = _
    rw [hatt]
    rw [runAttempts_retry_step (text.take 8000) oracleFail jitter 0 none 1 [2, 3]
      503 reason body hf0 (by decide)]
    have hf1s : (fun i => oracleFail (i + 1)) 0 = HfCall.httpErr 503 reason body := by
      simpa using hf1
    rw [runAttempts_retry_step (text.take 8000) (fun i => oracleFail (i + 1)) jitter 1
      (some (.http 503 reason body)) 2 [3] 503 reason body hf1s (by decide)]
    have hf2s : (fun i => (fun i => oracleFail (i + 1)) (i + 1)) 0 =
        HfCall.httpErr 503 reason body := by
      simpa using hf2
    rw [runAttempts_retry_step (text.take 8000)
      (fun i => (fun i => oracleFail (i + 1)) (i + 1)) jitter 2
      (some (.http 503 reason body)) 3 [] 503 reason body hf2s (by decide)]
    simp [runAttempts]

/-- Claim C2 (witness): the 503·503·success scenario at concrete inputs. -/
theorem claim_C2_witness :
    call_hf_extract (some "t".toList)
      (fun i => if i < 2 then HfCall.httpErr 503 "SU".toList "b".toList
                else .reply "\x7b\"a\": 1\x7d".toList)
      (fun _ => (1 : ℚ) / 2) "doc".toList =
      ⟨.ok (Json.obj [("a".toList, Json.num "1".toList)], "\x7b\"a\": 1\x7d".toList),
       [baseDelay * 2 ^ (1 - 1) + (1 : ℚ) / 2, baseDelay * 2 ^ (2 - 1) + (1 : ℚ) / 2],
       3, 3,
       [mkBaseMessages ("doc".toList.take 8000), mkBaseMessages ("doc".toList.take 8000),
        mkBaseMessages ("doc".toList.take 8000)]⟩ :=
  (claim_C2 "t".toList "doc".toList "SU".toList "b".toList "\x7b\"a\": 1\x7d".toList
    (Json.obj [("a".toList, Json.num "1".toList)])
    (fun i => if i < 2 then HfCall.httpErr 503 "SU".toList "b".toList
              else .reply "\x7b\"a\": 1\x7d".toList)
    (fun _ => HfCall.httpErr 503 "SU".toList "b".toList)
    (fun _ => (1 : ℚ) / 2)
    (fun _ => ⟨by norm_num, by norm_num⟩)
    rfl rfl rfl rfl rfl rfl rfl).2.1

/-- Claim C3: a non-retryable HTTP status (any status outside
`{429, 500, 502, 503, 504}`) on the first call aborts immediately,
propagating that error, with zero sleeps and zero further attempts or
calls. -/
theorem claim_C3 (tk text reason body : Str) (code : Nat)
    (oracle : Nat → HfCall) (jitter : Nat → ℚ)
    (hcode : code ∉ retryableCodes)
    (h0 : oracle 0 = .httpErr code reason body) :
    call_hf_extract (some tk) oracle jitter text =
      ⟨.error (.fatalHttp code reason body), [], 1, 1,
       [mkBaseMessages (text.take 8000)]⟩ := by
  show runAttempts (text.take 8000) oracle jitter 0 none attemptNumbers = _
  rw [show attemptNumbers = [1, 2, 3] from rfl]
  exact runAttempts_fatal_step (text.take 8000) oracle jitter 0 none 1 [2, 3]
    code reason body h0 hcode

/-- Claim C3 (witness): HTTP 400 on the first call. -/
theorem claim_C3_witness :
    call_hf_extract (some "t".toList)
      (fun _ => HfCall.httpErr 400 "Bad Request".toList "".toList)
      (fun _ => (1 : ℚ) / 2) "doc".toList =
      ⟨.error (.fatalHttp 400 "Bad Request".toList "".toList), [], 1, 1,
       [mkBaseMessages ("doc".toList.take 8000)]⟩ :=
  claim_C3 "t".toList "doc".toList "Bad Request".toList "".toList 400
    (fun _ => HfCall.httpErr 400 "Bad Request".toList "".toList)
    (fun _ => (1 : ℚ) / 2) (by decide) rfl


/-- Claim C7 (counterexample): the repair stage is not invoked only after a
parse failure — a non-HTTP failure of the primary call itself (here a
network-style error, caught by the same `except Exception` handler) also
triggers the repair call, with `raw_output` still the empty string, although
no reply was ever parsed: the second model-client call carries the repair
messages, not the primary ones. -/
theorem claim_C7_counterexample :
    call_hf_extract (some "t".toList)
      (fun i => if i = 0 then HfCall.otherErr "timed out".toList
                else .reply "\x7b\x7d".toList)
      (fun _ => (1 : ℚ) / 2) "doc".toList =
      ⟨.ok (Json.obj [], "\x7b\x7d".toList), [], 2, 1,
       [mkBaseMessages ("doc".toList.take 8000), mkRepairMessages []]⟩ ∧
    mkRepairMessages [] ≠ mkBaseMessages ("doc".toList.take 8000) :=
  ⟨rfl, by decide⟩

/-- Claim C7 (amended): within each outer retry attempt, the repair stage is
invoked after any primary failure that is not an `HTTPError` — a parse failure
of the primary reply, or a non-HTTP failure of the primary call itself (the
raw reply to fix then being the empty string) — and never after an HTTP
failure, whose next model-client call is already the next attempt's primary
call; it issues exactly one additional model-client call (so a successful
repair means exactly two calls in that attempt, returning the repaired
content, while a primary reply that parses means exactly one call), and any
failure of the repair call itself (HTTP or parse) is folded into that
attempt's failure without an inner retry: the next model-client call belongs
to the next outer attempt. -/
theorem claim_C7 (tk text : Str) (jitter : Nat → ℚ) :
    (∀ (oracle : Nat → HfCall) (content rc : Str) (je : JsonErr) (v : Json),
      oracle 0 = .reply content →
      extract_json_object (pyStrip content) = .error je →
      oracle 1 = .reply rc →
      extract_json_object (pyStrip rc) = .ok v →
      call_hf_extract (some tk) oracle jitter text =
        ⟨.ok (v, pyStrip rc), [], 2, 1,
         [mkBaseMessages (text.take 8000), mkRepairMessages (pyStrip content)]⟩) ∧
    (∀ (oracle : Nat → HfCall) (content : Str) (v : Json),
      oracle 0 = .reply content →
      extract_json_object (pyStrip content) = .ok v →
      call_hf_extract (some tk) oracle jitter text =
        ⟨.ok (v, pyStrip content), [], 1, 1, [mkBaseMessages (text.take 8000)]⟩) ∧
    (∀ (oracle : Nat → HfCall) (content rc2 : Str) (je : JsonErr) (e2 : ExcInfo) (v2 : Json),
      oracle 0 = .reply content →
      extract_json_object (pyStrip content) = .error je →
      repairFailExc (oracle 1) = some e2 →
      oracle 2 = .reply rc2 →
      extract_json_object (pyStrip rc2) = .ok v2 →
      call_hf_extract (some tk) oracle jitter text =
        ⟨.ok (v2, pyStrip rc2), [baseDelay * 2 ^ (1 - 1) + jitter 0], 3, 2,
         [mkBaseMessages (text.take 8000), mkRepairMessages (pyStrip content),
          mkBaseMessages (text.take 8000)]⟩) ∧
    (∀ (oracle : Nat → HfCall) (m rc : Str) (v : Json),
      oracle 0 = .otherErr m →
      oracle 1 = .reply rc →
      extract_json_object (pyStrip rc) = .ok v →
      call_hf_extract (some tk) oracle jitter text =
        ⟨.ok (v, pyStrip rc), [], 2, 1,
         [mkBaseMessages (text.take 8000), mkRepairMessages []]⟩) ∧
    (∀ (oracle : Nat → HfCall) (code : Nat) (reason body rc : Str) (v : Json),
      code ∈ retryableCodes →
      oracle 0 = .httpErr code reason body →
      oracle 1 = .reply rc →
      extract_json_object (pyStrip rc) = .ok v →
      call_hf_extract (some tk) oracle jitter text =
        ⟨.ok (v, pyStrip rc), [baseDelay * 2 ^ (1 - 1) + jitter 0], 2, 2,
         [mkBaseMessages (text.take 8000), mkBaseMessages (text.take 8000)]⟩) := by
  have hatt : attemptNumbers = [1, 2, 3] := rfl
  refine ⟨?_, ?_, ?_, ?_, ?_⟩
  · intro oracle content rc je v h0 hex h1 hex2
    show runAttempts (text.take 8000) oracle jitter 0 none attemptNumbers = _
    rw [hatt]
    exact runAttempts_repairok_step (text.take 8000) oracle jitter 0 none 1 [2, 3]
      content rc je v h0 hex h1 hex2
  · intro oracle content v h0 hex
    show runAttempts (text.take 8000) oracle jitter 0 none attemptNumbers = _
    rw [hatt]
    exact runAttempts_ok_step (text.take 8000) oracle jitter 0 none 1 [2, 3]
      content v h0 hex
  · intro oracle content rc2 je e2 v2 h0 hex h1 h2 hex2
    show runAttempts (text.take 8000) oracle jitter 0 none attemptNumbers = _
    rw [hatt]
    rw [runAttempts_repairfail_step (text.take 8000) oracle jitter 0 none 1 [2, 3]
      content je e2 h0 hex h1]
    have h2s : (fun i => oracle (i + 2)) 0 = HfCall.reply rc2 := by simpa using h2
    rw [runAttempts_ok_step (text.take 8000) (fun i => oracle (i + 2)) jitter 1
      (some (.parseRepair (.jsonErr je) e2)) 2 [3] rc2 v2 h2s hex2]
  · intro oracle m rc v h0 h1 hex
    show runAttempts (text.take 8000) oracle jitter 0 none attemptNumbers = _
    rw [hatt]
    exact runAttempts_othererr_repairok_step (text.take 8000) oracle jitter 0 none 1 [2, 3]
      m rc v h0 h1 hex
  · intro oracle code reason body rc v hcode h0 h1 hex
    show runAttempts (text.take 8000) oracle jitter 0 none attemptNumbers = _
    rw [hatt]
    rw [runAttempts_retry_step (text.take 8000) oracle jitter 0 none 1 [2, 3]
      code reason body h0 hcode]
    have h1s : (fun i => oracle (i + 1)) 0 = HfCall.reply rc := by simpa using h1
    rw [runAttempts_ok_step (text.take 8000) (fun i => oracle (i + 1)) jitter 1
      (some (.http code reason body)) 2 [3] rc v h1s hex]

/-- Claim C7 (witness for the amended theorem): an unparseable primary reply
whose repair call returns valid JSON, at concrete inputs. -/
theorem claim_C7_witness :
    call_hf_extract (some "t".toList)
      (fun i => if i = 0 then HfCall.reply "oops".toList
                else .reply "\x7b\"a\": 1\x7d".toList)
      (fun _ => (1 : ℚ) / 2) "doc".toList =
      ⟨.ok (Json.obj [("a".toList, Json.num "1".toList)], "\x7b\"a\": 1\x7d".toList),
       [], 2, 1,
       [mkBaseMessages ("doc".toList.take 8000), mkRepairMessages "oops".toList]⟩ :=
  (claim_C7 "t".toList "doc".toList (fun _ => (1 : ℚ) / 2)).1
    (fun i => if i = 0 then HfCall.reply "oops".toList
              else .reply "\x7b\"a\": 1\x7d".toList)
    "oops".toList "\x7b\"a\": 1\x7d".toList (.noJsonFound "oops".toList)
    (Json.obj [("a".toList, Json.num "1".toList)])
    rfl rfl rfl rfl

/-- Claim C10: when the final (third) attempt fails with a retryable HTTP
error, or with a parse failure whose repair also fails, the controller still
performs the full backoff sleep for that attempt before raising
`ExtractionFailed`; in particular three consecutive retryable failures, or
three consecutive parse/repair failures, incur exactly three backoff sleeps
(the third being `base_delay * 2^2 + random()`), not two. -/
theorem claim_C10 (tk text : Str) (jitter : Nat → ℚ) :
    (∀ (oracle : Nat → HfCall) (code : Nat) (reason body : Str),
      code ∈ retryableCodes →
      oracle 0 = .httpErr code reason body →
      oracle 1 = .httpErr code reason body →
      oracle 2 = .httpErr code reason body →
      call_hf_extract (some tk) oracle jitter text =
        ⟨.error (.extractionFailed (some (.http code reason body))),
         [baseDelay * 2 ^ (1 - 1) + jitter 0, baseDelay * 2 ^ (2 - 1) + jitter 1,
          baseDelay * 2 ^ (3 - 1) + jitter 2],
         3, 3,
         [mkBaseMessages (text.take 8000), mkBaseMessages (text.take 8000),
          mkBaseMessages (text.take 8000)]⟩) ∧
    (∀ (oracle : Nat → HfCall) (c1 c2 c3 : Str) (j1 j2 j3 : JsonErr)
       (e1 e2 e3 : ExcInfo),
      oracle 0 = .reply c1 → extract_json_object (pyStrip c1) = .error j1 →
      repairFailExc (oracle 1) = some e1 →
      oracle 2 = .reply c2 → extract_json_object (pyStrip c2) = .error j2 →
      repairFailExc (oracle 3) = some e2 →
      oracle 4 = .reply c3 → extract_json_object (pyStrip c3) = .error j3 →
      repairFailExc (oracle 5) = some e3 →
      call_hf_extract (some tk) oracle jitter text =
        ⟨.error (.extractionFailed (some (.parseRepair (.jsonErr j3) e3))),
         [baseDelay * 2 ^ (1 - 1) + jitter 0, baseDelay * 2 ^ (2 - 1) + jitter 1,
          baseDelay * 2 ^ (3 - 1) + jitter 2],
         6, 3,
         [mkBaseMessages (text.take 8000), mkRepairMessages (pyStrip c1),
          mkBaseMessages (text.take 8000), mkRepairMessages (pyStrip c2),
          mkBaseMessages (text.take 8000), mkRepairMessages (pyStrip c3)]⟩) := by
  have hatt : attemptNumbers = [1, 2, 3] := rfl
  constructor
  · intro oracle code reason body hcode h0 h1 h2
    show runAttempts (text.take 8000) oracle jitter 0 none attemptNumbers = _
    rw [hatt]
    rw [runAttempts_retry_step (text.take 8000) oracle jitter 0 none 1 [2, 3]
      code reason body h0 hcode]
    have h1s : (fun i => oracle (i + 1)) 0 = HfCall.httpErr code reason body := by
      simpa using h1
    rw [runAttempts_retry_step (text.take 8000) (fun i => oracle (i + 1)) jitter 1
      (some (.http code reason body)) 2 [3] code reason body h1s hcode]
    have h2s : (fun i => (fun i => oracle (i + 1)) (i + 1)) 0 =
        HfCall.httpErr code reason body := by simpa using h2
    rw [runAttempts_retry_step (text.take 8000)
      (fun i => (fun i => oracle (i + 1)) (i + 1)) jitter 2
      (some (.http code reason body)) 3 [] code reason body h2s hcode]
    simp [runAttempts]
  · intro oracle c1 c2 c3 j1 j2 j3 e1 e2 e3 h0 hx1 hr1 h2 hx2 hr2 h4 hx3 hr3
    show runAttempts (text.take 8000) oracle jitter 0 none attemptNumbers = _
    rw [hatt]
    rw [runAttempts_repairfail_step (text.take 8000) oracle jitter 0 none 1 [2, 3]
      c1 j1 e1 h0 hx1 hr1]
    have h2s : (fun i => oracle (i + 2)) 0 = HfCall.reply c2 := by simpa using h2
    have hr2s : repairFailExc ((fun i => oracle (i + 2)) 1) = some e2 := by
      simpa using hr2
    rw [runAttempts_repairfail_step (text.take 8000) (fun i => oracle (i + 2)) jitter 1
      (some (.parseRepair (.jsonErr j1) e1)) 2 [3] c2 j2 e2 h2s hx2 hr2s]
    have h4s : (fun i => (fun i => oracle (i + 2)) (i + 2)) 0 = HfCall.reply c3 := by
      simpa using h4
    have hr3s : repairFailExc ((fun i => (fun i => oracle (i + 2)) (i + 2)) 1) = some e3 := by
      simpa using hr3
    rw [runAttempts_repairfail_step (text.take 8000)
      (fun i => (fun i => oracle (i + 2)) (i + 2)) jitter 2
      (some (.parseRepair (.jsonErr j2) e2)) 3 [] c3 j3 e3 h4s hx3 hr3s]
    simp [runAttempts]

/-- Claim C10 (witness): three parse/repair failures (every call replies
`oops`) incur exactly three sleeps and six calls. -/
theorem claim_C10_witness :
    call_hf_extract (some "t".toList) (fun _ => HfCall.reply "oops".toList)
      (fun _ => (1 : ℚ) / 2) "doc".toList =
      ⟨.error (.extractionFailed (some (.parseRepair
          (.jsonErr (.noJsonFound "oops".toList))
          (.jsonErr (.noJsonFound "oops".toList))))),
       [baseDelay * 2 ^ (1 - 1) + (1 : ℚ) / 2, baseDelay * 2 ^ (2 - 1) + (1 : ℚ) / 2,
        baseDelay * 2 ^ (3 - 1) + (1 : ℚ) / 2],
       6, 3,
       [mkBaseMessages ("doc".toList.take 8000), mkRepairMessages "oops".toList,
        mkBaseMessages ("doc".toList.take 8000), mkRepairMessages "oops".toList,
        mkBaseMessages ("doc".toList.take 8000), mkRepairMessages "oops".toList]⟩ :=
  (claim_C10 "t".toList "doc".toList (fun _ => (1 : ℚ) / 2)).2
    (fun _ => HfCall.reply "oops".toList)
    "oops".toList "oops".toList "oops".toList
    (.noJsonFound "oops".toList) (.noJsonFound "oops".toList) (.noJsonFound "oops".toList)
    (.jsonErr (.noJsonFound "oops".toList)) (.jsonErr (.noJsonFound "oops".toList))
    (.jsonErr (.noJsonFound "oops".toList))
    rfl rfl rfl rfl rfl rfl rfl rfl rfl


/-! ## Claim theorems for the document string sent to the model (C9) -/

/-- Modelled from the spec: the claimed "ordered sequence of page strings,
concatenated with blank-line separators into one document string, truncated to
a maximum of 8000 characters" — over all page strings, with no filtering. -/
def specDocumentString (pages : List (Option Str)) : Str :=
  (List.intercalate "\n\n".toList (pages.map (fun p => p.getD []))).take 8000

theorem pagesTextOf_eq_filter (pages : List (Option Str)) :
    pagesTextOf pages =
      (pages.map (fun p => p.getD [])).filter (fun t => !(pyStrip t).isEmpty) := by
  induction pages with
  | nil => rfl
  | cons p rest ih =>
    simp only [pagesTextOf, List.map_cons, List.filter_cons]
    by_cases h : pyStrip (p.getD []) = []
    · simp [h, ih, List.isEmpty_iff]
    · simp [h, ih, List.isEmpty_iff]

/-- Every entered retry iteration sends the primary `base_messages` first. -/
theorem runAttempts_sent_head (text : Str) (oracle : Nat → HfCall) (jitter : Nat → ℚ)
    (si : Nat) (le : Option LastErr) (attempt : Nat) (rest : List Nat) :
    (runAttempts text oracle jitter si le (attempt :: rest)).sent.head? =
      some (mkBaseMessages text) := by
  cases h0 : oracle 0 with
  | reply content =>
    cases hex : extract_json_object (pyStrip content) with
    | ok v =>
      rw [runAttempts_ok_step text oracle jitter si le attempt rest content v h0 hex]
      rfl
    | error je =>
      cases h1 : repairFailExc (oracle 1) with
      | some e2 =>
        rw [runAttempts_repairfail_step text oracle jitter si le attempt rest
          content je e2 h0 hex h1]
        rfl
      | none =>
        cases hc : oracle 1 with
        | reply rc =>
          rw [hc] at h1
          cases hex2 : extract_json_object (pyStrip rc) with
          | ok v =>
            rw [runAttempts_repairok_step text oracle jitter si le attempt rest
              content rc je v h0 hex hc hex2]
            rfl
          | error je2 => simp [repairFailExc, hex2] at h1
        | httpErr c rs b =>
          rw [hc] at h1
          simp [repairFailExc] at h1
        | otherErr m2 =>
          rw [hc] at h1
          simp [repairFailExc] at h1
  | httpErr code reason body =>
    by_cases hcode : code ∈ retryableCodes
    · rw [runAttempts_retry_step text oracle jitter si le attempt rest
        code reason body h0 hcode]
      rfl
    · rw [runAttempts_fatal_step text oracle jitter si le attempt rest
        code reason body h0 hcode]
      rfl
  | otherErr m =>
    cases h1 : repairFailExc (oracle 1) with
    | some e2 =>
      rw [runAttempts_othererr_repairfail_step text oracle jitter si le attempt rest
        m e2 h0 h1]
      rfl
    | none =>
      cases hc : oracle 1 with
      | reply rc =>
        rw [hc] at h1
        cases hex2 : extract_json_object (pyStrip rc) with
        | ok v =>
          rw [runAttempts_othererr_repairok_step text oracle jitter si le attempt rest
            m rc v h0 hc hex2]
          rfl
        | error je2 => simp [repairFailExc, hex2] at h1
      | httpErr c rs b =>
        rw [hc] at h1
        simp [repairFailExc] at h1
      | otherErr m2 =>
        rw [hc] at h1
        simp [repairFailExc] at h1

/-- Claim C9 (counterexample): with a whitespace-only page followed by page
`"x"`, the document string actually submitted to the model is `"x"` — the
whitespace-only page is dropped before joining — while the claimed
concatenation of all page strings is `" \n\nx"`. -/
theorem claim_C9_counterexample :
    extractedTextOf [some " ".toList, some "x".toList] = "x".toList ∧
    (call_hf_extract (some "t".toList) (fun _ => HfCall.reply "\x7b\x7d".toList)
        (fun _ => (1 : ℚ) / 2)
        (extractedTextOf [some " ".toList, some "x".toList])).sent.head? =
      some (mkBaseMessages ("x".toList.take 8000)) ∧
    specDocumentString [some " ".toList, some "x".toList] = " \n\nx".toList ∧
    "x".toList.take 8000 ≠ specDocumentString [some " ".toList, some "x".toList] :=
  ⟨rfl, rfl, rfl, by decide⟩

/-- Claim C9 (amended): the document string submitted to the model is the
ordered sequence of those page strings that are non-empty after trimming,
concatenated with blank-line separators, truncated to a maximum of 8000
characters before being sent: it is embedded in the first message list any
run sends. -/
theorem claim_C9 (pages : List (Option Str)) (tk : Str) (oracle : Nat → HfCall)
    (jitter : Nat → ℚ) :
    (extractedTextOf pages).take 8000 =
      (List.intercalate "\n\n".toList
        ((pages.map (fun p => p.getD [])).filter (fun t => !(pyStrip t).isEmpty))).take 8000 ∧
    ((extractedTextOf pages).take 8000).length ≤ 8000 ∧
    (call_hf_extract (some tk) oracle jitter (extractedTextOf pages)).sent.head? =
      some (mkBaseMessages ((extractedTextOf pages).take 8000)) := by
  refine ⟨?_, ?_, ?_⟩
  · rw [extractedTextOf, pagesTextOf_eq_filter]
  · rw [List.length_take]
    exact min_le_left _ _
  · show (runAttempts ((extractedTextOf pages).take 8000) oracle jitter 0 none
      attemptNumbers).sent.head? = _
    rw [show attemptNumbers = [1, 2, 3] from rfl]
    exact runAttempts_sent_head ((extractedTextOf pages).take 8000) oracle jitter 0 none 1 [2, 3]

/-! ## Claim theorems for the Pipeline Driver (C1, C8) -/

/-- Claim C1: for every invocation on a target key whose extracted text is
non-empty after trimming, exactly one StructuredRecord or ErrorReport artifact
is persisted (under `processed/<base>.structured.json` resp.
`processed/<base>.structured.error.json`); when the extracted text is empty
after trimming, neither is persisted and the extraction protocol is never
invoked. -/
theorem claim_C1 (env : HandlerEnv) (hkey : targetKey env.key = true) :
    (pyStrip (extractedTextOf env.pages) ≠ [] →
      ((lambda_handler env).puts.countP isStructuredPut) +
        ((lambda_handler env).puts.countP isErrorPut) = 1 ∧
      (lambda_handler env).llmInvoked = true ∧
      (∀ p ∈ (lambda_handler env).puts, isStructuredPut p → p.key = structuredKeyOf env.key) ∧
      (∀ p ∈ (lambda_handler env).puts, isErrorPut p → p.key = errKeyOf env.key)) ∧
    (pyStrip (extractedTextOf env.pages) = [] →
      ((lambda_handler env).puts.countP isStructuredPut) = 0 ∧
      ((lambda_handler env).puts.countP isErrorPut) = 0 ∧
      (lambda_handler env).llmInvoked = false) := by
  have hif : ¬¬ (targetKey env.key = true) := by simp [hkey]
  constructor
  · intro hne
    have hlen : ¬ ((pyStrip (extractedTextOf env.pages)).length = 0) := by
      simpa [List.length_eq_zero] using hne
    unfold lambda_handler
    rw [if_neg hif, if_neg hlen]
    cases hres : (call_hf_extract env.token env.oracle env.jitter
        (extractedTextOf env.pages)).result with
    | ok pr =>
      obtain ⟨structured, raw⟩ := pr
      refine ⟨?_, rfl, ?_, ?_⟩ <;>
        simp [List.countP_cons, isStructuredPut, isErrorPut]
    | error e =>
      refine ⟨?_, rfl, ?_, ?_⟩ <;>
        simp [List.countP_cons, isStructuredPut, isErrorPut]
  · intro heq
    have hlen : (pyStrip (extractedTextOf env.pages)).length = 0 := by simp [heq]
    unfold lambda_handler
    rw [if_neg hif, if_pos hlen]
    refine ⟨?_, ?_, rfl⟩ <;>
      simp [List.countP_cons, isStructuredPut, isErrorPut]

/-- Claim C1 (witness), on a one-page document and a model client that
replies with valid JSON: exactly one of the two artifacts is persisted. -/
theorem claim_C1_witness :
    ((lambda_handler ⟨"b".toList, "raw/x.pdf".toList, [some "hi".toList],
        some "t".toList, fun _ => HfCall.reply "\x7b\x7d".toList,
        fun _ => (1 : ℚ) / 2⟩).puts.countP isStructuredPut) +
      ((lambda_handler ⟨"b".toList, "raw/x.pdf".toList, [some "hi".toList],
        some "t".toList, fun _ => HfCall.reply "\x7b\x7d".toList,
        fun _ => (1 : ℚ) / 2⟩).puts.countP isErrorPut) = 1 :=
  ((claim_C1 ⟨"b".toList, "raw/x.pdf".toList, [some "hi".toList], some "t".toList,
    fun _ => HfCall.reply "\x7b\x7d".toList, fun _ => (1 : ℚ) / 2⟩ rfl).1
    (by decide)).1

/-- Claim C8: on unrecoverable extraction failure the handler persists,
besides the two unconditional artifacts, exactly the ErrorReport — holding the
source document identifier, the error, the hint text, and the (≤ 2000
character) snippet of the last raw model reply available at the handler,
which is the empty string since the failed extraction returned none — and
reports normal completion (HTTP 200, `processed_but_llm_failed`) instead of
propagating the failure. -/
theorem claim_C8 (env : HandlerEnv) (e : HfFailure)
    (hkey : targetKey env.key = true)
    (hne : pyStrip (extractedTextOf env.pages) ≠ [])
    (hres : (call_hf_extract env.token env.oracle env.jitter
        (extractedTextOf env.pages)).result = .error e) :
    lambda_handler env =
      ⟨[⟨textKeyOf env.key, .extractedText (extractedTextOf env.pages)⟩,
        ⟨metaKeyOf env.key, .metaRecord (sourcePdfOf env.bucket env.key)
          env.pages.length (extractedTextOf env.pages).length metaNote⟩,
        ⟨errKeyOf env.key, .errorReport (sourcePdfOf env.bucket env.key) e errHint
          (([] : Str).take 2000)⟩],
       200, "processed_but_llm_failed".toList, true⟩ ∧
    (([] : Str).take 2000).length ≤ 2000 := by
  have hif : ¬¬ (targetKey env.key = true) := by simp [hkey]
  have hlen : ¬ ((pyStrip (extractedTextOf env.pages)).length = 0) := by
    simpa [List.length_eq_zero] using hne
  constructor
  · unfold lambda_handler
    rw [if_neg hif, if_neg hlen, hres]
    rfl
  · simp

/-- Claim C8 (witness), with a model client that fails fatally with
HTTP 400. -/
theorem claim_C8_witness :
    lambda_handler ⟨"b".toList, "raw/x.pdf".toList, [some "hi".toList],
        some "t".toList, fun _ => HfCall.httpErr 400 "BR".toList "".toList,
        fun _ => (1 : ℚ) / 2⟩ =
      ⟨[⟨textKeyOf "raw/x.pdf".toList, .extractedText (extractedTextOf [some "hi".toList])⟩,
        ⟨metaKeyOf "raw/x.pdf".toList, .metaRecord
          (sourcePdfOf "b".toList "raw/x.pdf".toList) 1
          (extractedTextOf [some "hi".toList]).length metaNote⟩,
        ⟨errKeyOf "raw/x.pdf".toList, .errorReport
          (sourcePdfOf "b".toList "raw/x.pdf".toList)
          (.fatalHttp 400 "BR".toList "".toList) errHint (([] : Str).take 2000)⟩],
       200, "processed_but_llm_failed".toList, true⟩ :=
  (claim_C8 ⟨"b".toList, "raw/x.pdf".toList, [some "hi".toList], some "t".toList,
    fun _ => HfCall.httpErr 400 "BR".toList "".toList, fun _ => (1 : ℚ) / 2⟩
    (.fatalHttp 400 "BR".toList "".toList) rfl (by decide) rfl).1

end DocIntel
